import Mathlib

/-!
Shallow embedding of the acceptance-criteria scoring engine of
`src/validator/js/validator.js` (with the presentation helper of
`src/shared/js/validator-inline.js`), together with theorems settling the
stated properties of the engine.

The JavaScript source classifies text with case-insensitive regular
expressions.  We embed those regexes as an explicit syntax tree `RE` and run
them with a backtracking matcher whose priority order coincides with the
JavaScript engine (alternation left-first, greedy quantifiers longest-first,
lazy quantifiers shortest-first), including word boundaries and multiline
line-start anchors.
-/

namespace ACV

/-- ASCII word character, the model of the regex class `\w`. -/
def isWordChar (c : Char) : Bool := c.isAlpha || c.isDigit || c == '_'

/-- ASCII whitespace, the model of the regex class `\s`. -/
def isSpaceChar (c : Char) : Bool :=
  c == ' ' || c == '\t' || c == '\n' || c == '\r' || c.toNat == 11 || c.toNat == 12

/-- ASCII lower-casing, the model of case-insensitive (`i`-flag) matching and
of `String.prototype.toLowerCase` on the ASCII strings the engine handles. -/
def lowerAscii (c : Char) : Char :=
  if 'A' ≤ c ∧ c ≤ 'Z' then Char.ofNat (c.toNat + 32) else c

/-- Lower-case an entire string (model of `m.toLowerCase()`). -/
def lowerStr (s : String) : String := String.mk (s.data.map lowerAscii)

/-- Regular-expression syntax.  Quantifiers are restricted to the shapes that
occur in the source patterns: `*`, `+` and lazy `+?` only ever quantify a
single-character class there, which keeps the matcher structurally
terminating. -/
inductive RE where
  | fail
  | eps
  | cls (p : Char → Bool)
  | seq (a b : RE)
  | alt (a b : RE)
  | opt (a : RE)
  | starCls (p : Char → Bool)
  | lazyPlusCls (p : Char → Bool)
  | wordB
  | bolm

/-- Greedy Kleene star over a character class: try the longest extension
first, exactly like the JavaScript engine. `prev` is the character just
before the current position (used by `\b` and `^`). -/
def starG (p : Char → Bool) : Option Char → List Char →
    (Option Char → List Char → Option Nat) → Option Nat
  | prev, [], k => k prev []
  | prev, c :: rest, k =>
    if p c then
      match starG p (some c) rest k with
      | some r => some r
      | none => k prev (c :: rest)
    else k prev (c :: rest)

/-- Lazy plus over a character class: consume one character, then try the
shortest extension first. -/
def lazyP (p : Char → Bool) : Option Char → List Char →
    (Option Char → List Char → Option Nat) → Option Nat
  | _, [], _ => none
  | _, c :: rest, k =>
    if p c then
      match k (some c) rest with
      | some r => some r
      | none => lazyP p (some c) rest k
    else none

/-- Word boundary `\b`: exactly one side of the position is a word
character. -/
def isBoundary (prev : Option Char) (s : List Char) : Bool :=
  let l := match prev with | none => false | some c => isWordChar c
  let r := match s with | [] => false | c :: _ => isWordChar c
  l != r

/-- Backtracking matcher in continuation style.  The continuation receives
the character preceding the new position and the remaining input; the first
success in JavaScript priority order wins. -/
def RE.mat : RE → Option Char → List Char →
    (Option Char → List Char → Option Nat) → Option Nat
  | .fail, _, _, _ => none
  | .eps, prev, s, k => k prev s
  | .cls _, _, [], _ => none
  | .cls p, _, c :: rest, k => if p c then k (some c) rest else none
  | .seq a b, prev, s, k => a.mat prev s (fun p2 s2 => b.mat p2 s2 k)
  | .alt a b, prev, s, k =>
    (match a.mat prev s k with
     | some r => some r
     | none => b.mat prev s k)
  | .opt a, prev, s, k =>
    (match a.mat prev s k with
     | some r => some r
     | none => k prev s)
  | .starCls p, prev, s, k => starG p prev s k
  | .lazyPlusCls p, prev, s, k => lazyP p prev s k
  | .wordB, prev, s, k => if isBoundary prev s then k prev s else none
  | .bolm, prev, s, k =>
    match prev with
    | none => k prev s
    | some c => if c == '\n' then k prev s else none

/-- Length of the first match of `re` anchored at the current position, or
`none`. -/
def RE.matchLen (re : RE) (prev : Option Char) (s : List Char) : Option Nat :=
  re.mat prev s (fun _ rest => some (s.length - rest.length))

/-- Does `re` match anywhere at or after the current position?  Model of
`RegExp.prototype.test` for the source's non-global regexes (which neither
read nor write `lastIndex`). -/
def testAux (re : RE) : Option Char → List Char → Bool
  | prev, [] => (re.matchLen prev []).isSome
  | prev, c :: rest =>
    (re.matchLen prev (c :: rest)).isSome || testAux re (some c) rest

/-- `regex.test(s)` for the non-global patterns of the source. -/
def jsTest (re : RE) (s : String) : Bool := testAux re none s.data

/-- Scan for successive non-overlapping leftmost matches, the semantics of
`String.prototype.match` with a `g`-flagged regex.  The fuel argument is
initialised to the input length; every step consumes at least one character,
so it never runs out. -/
def scanAux (re : RE) : Nat → Option Char → List Char → List String
  | 0, _, _ => []
  | _ + 1, _, [] => []
  | fuel + 1, prev, c :: rest =>
    match re.matchLen prev (c :: rest) with
    | none => scanAux re fuel (some c) rest
    | some 0 => "" :: scanAux re fuel (some c) rest
    | some (n + 1) =>
      let consumed := (c :: rest).take (n + 1)
      String.mk consumed ::
        scanAux re fuel consumed.getLast? ((c :: rest).drop (n + 1))

/-- `s.match(re) || []` as a list of matched substrings (the source only ever
uses the match count and the matched texts). -/
def jsMatch (re : RE) (s : String) : List String :=
  scanAux re s.data.length none s.data

/-- Case-insensitive single literal character. -/
def ciCls (c : Char) : RE := RE.cls (fun x => lowerAscii x == lowerAscii c)

/-- Case-insensitive literal string. -/
def rstrAux : List Char → RE
  | [] => RE.eps
  | c :: cs => RE.seq (ciCls c) (rstrAux cs)

def rstr (s : String) : RE := rstrAux s.data

/-- Ordered alternation of a list of regexes (JavaScript `a|b|c`). -/
def ralts : List RE → RE
  | [] => RE.fail
  | [r] => r
  | r :: rs => RE.alt r (ralts rs)

/-- Ordered alternation of literal strings. -/
def rlits (l : List String) : RE := ralts (l.map rstr)

/-- Concatenation of a list of regexes. -/
def rcat : List RE → RE
  | [] => RE.eps
  | [r] => r
  | r :: rs => RE.seq r (rcat rs)

/-- `\s*` -/
def wsStar : RE := RE.starCls isSpaceChar

/-- `\s+` -/
def wsPlus : RE := RE.seq (RE.cls isSpaceChar) (RE.starCls isSpaceChar)

/-- `\d+` -/
def digitPlus : RE := RE.seq (RE.cls Char.isDigit) (RE.starCls Char.isDigit)

/-- `#+` -/
def hashPlus : RE := RE.seq (ciCls '#') (RE.starCls (fun c => c == '#'))

/-- A word with an optional trailing `s` (the `words?` idiom). -/
def optS (s : String) : RE := RE.seq (rstr s) (RE.opt (ciCls 's'))

/-- The class `[x ]` under the `i` flag. -/
def xOrSpace : Char → Bool := fun c => c == 'x' || c == 'X' || c == ' '

/-! ## Pattern library (constants of `validator.js`) -/

/-- `STRUCTURE_PATTERNS.sectionPattern = /^#+\s*summary/im` -/
def sectionPattern : RE := rcat [RE.bolm, hashPlus, wsStar, rstr "summary"]

/-- `STRUCTURE_PATTERNS.checkboxPattern = /^-\s*\[\s*[x ]?\s*\]/gim` -/
def checkboxPattern : RE :=
  rcat [RE.bolm, ciCls '-', wsStar, ciCls '[', wsStar,
    RE.opt (RE.cls xOrSpace), wsStar, ciCls ']']

/-- `STRUCTURE_PATTERNS.outOfScopePattern = /^#+\s*out\s+of\s+scope/im` -/
def outOfScopePattern : RE :=
  rcat [RE.bolm, hashPlus, wsStar, rstr "out", wsPlus, rstr "of", wsPlus, rstr "scope"]

/-- `/^#+\s*acceptance\s+criteria/im` (from `REQUIRED_SECTIONS`) -/
def acceptanceCriteriaPattern : RE :=
  rcat [RE.bolm, hashPlus, wsStar, rstr "acceptance", wsPlus, rstr "criteria"]

/-- `CLARITY_PATTERNS.actionVerbs` -/
def actionVerbs : RE :=
  rcat [RE.wordB,
    rlits ["implement", "create", "build", "render", "handle", "display",
      "show", "hide", "enable", "disable", "validate", "submit", "load",
      "save", "delete", "update", "fetch", "send", "receive", "trigger",
      "navigate", "redirect", "authenticate", "authorize"],
    RE.wordB]

/-- `CLARITY_PATTERNS.metricsPattern`: optional comparator, a number, then a
required unit. -/
def metricsPattern : RE :=
  rcat [RE.opt (rlits ["≤", "≥", "<", ">", "=", "under", "within",
      "less than", "more than", "at least", "at most"]),
    wsStar, digitPlus, RE.opt (rcat [ciCls '.', digitPlus]), wsStar,
    ralts [rstr "ms", optS "millisecond", optS "second", rstr "s", rstr "%",
      rstr "percent", rstr "kb", rstr "mb", rstr "gb", rstr "tb", rstr "px",
      optS "item", optS "user", optS "request", optS "error", optS "day",
      optS "hour", optS "minute", optS "call", optS "connection",
      optS "record", optS "retrie", optS "attempt", optS "row",
      optS "entrie", optS "result", optS "page", optS "click", optS "tap",
      optS "event"]]

/-- `CLARITY_PATTERNS.thresholdPattern` -/
def thresholdPattern : RE :=
  rcat [RE.wordB,
    rlits ["exactly", "at least", "at most", "maximum", "minimum", "up to",
      "no more than", "no less than"],
    wsPlus, digitPlus]

/-- `TESTABILITY_PATTERNS.vagueTerms` -/
def vagueTerms : RE :=
  rcat [RE.wordB,
    ralts [rcat [rstr "work", RE.opt (ciCls 's'), wsPlus, rstr "correctly"],
      rcat [rstr "handle", RE.opt (ciCls 's'), wsPlus, rstr "properly"],
      rcat [rstr "appropriate", RE.opt (rstr "ly")],
      rcat [rstr "intuitive", RE.opt (rstr "ly")],
      rcat [rstr "user", RE.cls (fun c => c == '-' || c == ' '), rstr "friendly"],
      rcat [rstr "seamless", RE.opt (rstr "ly")],
      rstr "fast", rstr "slow", rstr "good", rstr "bad", rstr "nice",
      rstr "better", rstr "worse",
      rcat [rstr "adequate", RE.opt (rstr "ly")],
      rcat [rstr "sufficient", RE.opt (rstr "ly")],
      rstr "reasonable", rstr "reasonably", rstr "acceptable",
      rstr "properly", rstr "correctly",
      rcat [rstr "as", wsPlus, rstr "expected"],
      rcat [rstr "as", wsPlus, rstr "needed"]],
    RE.wordB]

/-- `TESTABILITY_PATTERNS.userStoryPattern = /\bas\s+(?:a|an|the)\s+[\w\s]+?,?\s*i\s+want/i` -/
def userStoryPattern : RE :=
  rcat [RE.wordB, rstr "as", wsPlus, ralts [rstr "a", rstr "an", rstr "the"],
    wsPlus, RE.lazyPlusCls (fun c => isWordChar c || isSpaceChar c),
    RE.opt (ciCls ','), wsStar, rstr "i", wsPlus, rstr "want"]

/-- `TESTABILITY_PATTERNS.gherkinPattern =
`/(?:^|\n)\s*(?:-\s*\[\s*[x ]?\s*\]\s*)?(given|when|then)\s+/im` -/
def gherkinPattern : RE :=
  rcat [RE.alt RE.bolm (ciCls '\n'), wsStar,
    RE.opt (rcat [ciCls '-', wsStar, ciCls '[', wsStar,
      RE.opt (RE.cls xOrSpace), wsStar, ciCls ']', wsStar]),
    rlits ["given", "when", "then"], wsPlus]

/-- `TESTABILITY_PATTERNS.compoundPattern = /\b(and|or)\b/i` -/
def compoundPattern : RE :=
  rcat [RE.wordB, ralts [rstr "and", rstr "or"], RE.wordB]

/-- `TESTABILITY_PATTERNS.implementationPattern` -/
def implementationPattern : RE :=
  rcat [RE.wordB,
    ralts [rcat [rstr "postgres", RE.opt (rstr "ql")], rstr "mysql",
      rstr "mongodb", rstr "redis", rstr "sql", rstr "react", rstr "vue",
      rstr "angular", rstr "svelte", rstr "tailwind", rstr "css",
      rstr "scss", rstr "sass", rstr "aws", rstr "lambda", rstr "s3",
      rstr "ec2", rstr "gcp", rstr "azure", rstr "docker",
      rstr "kubernetes", rstr "k8s",
      rcat [rstr "api", wsPlus, rstr "endpoint"], rstr "microservice",
      rstr "graphql", rcat [rstr "rest", wsPlus, rstr "api"],
      rstr "webpack", rstr "vite", rstr "npm", rstr "yarn"],
    RE.wordB]

/-- `COMPLETENESS_PATTERNS.errorCasePattern` -/
def errorCasePattern : RE :=
  rcat [RE.wordB,
    rlits ["error", "fail", "invalid", "empty", "null", "undefined",
      "missing", "timeout", "offline", "denied", "unauthorized",
      "forbidden", "not found", "exception"],
    RE.wordB]

/-- `COMPLETENESS_PATTERNS.edgeCasePattern` -/
def edgeCasePattern : RE :=
  rcat [RE.wordB,
    ralts [rcat [rstr "edge", wsPlus, rstr "case"],
      rcat [rstr "boundary", wsPlus, rstr "condition"],
      rcat [rstr "boundary", wsPlus, rstr "value"],
      rcat [rstr "upper", wsPlus, rstr "limit"],
      rcat [rstr "lower", wsPlus, rstr "limit"],
      rcat [rstr "maximum", wsPlus, rstr "value"],
      rcat [rstr "minimum", wsPlus, rstr "value"],
      rcat [rstr "empty", wsPlus, rstr "state"],
      rcat [rstr "no", wsPlus, rstr "results"],
      rcat [rstr "only", wsPlus, rstr "one"],
      rcat [rstr "zero", wsPlus, rstr "item", RE.opt (ciCls 's')],
      rstr "overflow", rstr "underflow",
      rcat [rstr "race", wsPlus, rstr "condition"],
      rstr "concurrent", rstr "simultaneous"],
    RE.wordB]

/-- `COMPLETENESS_PATTERNS.permissionPattern` -/
def permissionPattern : RE :=
  rcat [RE.wordB,
    rlits ["permission", "role", "admin", "user", "guest", "authenticated",
      "logged in", "logged out"],
    RE.wordB]

/-! ## Detection functions -/

/-- `[...new Set(arr)]`: deduplicate preserving first-occurrence order. -/
def uniqAux : List String → List String → List String
  | acc, [] => acc.reverse
  | acc, x :: xs => if acc.contains x then uniqAux acc xs else uniqAux (x :: acc) xs

def uniq (l : List String) : List String := uniqAux [] l

structure StructureDetection where
  hasSummary : Bool
  hasCheckboxes : Bool
  checkboxCount : Nat
  hasOutOfScope : Bool
  indicators : List String

/-- `detectStructure` of `validator.js`. -/
def detectStructure (text : String) : StructureDetection :=
  let hasSummary := jsTest sectionPattern text
  let checkboxMatches := jsMatch checkboxPattern text
  let hasOutOfScope := jsTest outOfScopePattern text
  { hasSummary := hasSummary
    hasCheckboxes := decide (0 < checkboxMatches.length)
    checkboxCount := checkboxMatches.length
    hasOutOfScope := hasOutOfScope
    indicators :=
      (if hasSummary then ["Summary section found"] else []) ++
      (if 0 < checkboxMatches.length then
        [toString checkboxMatches.length ++ " checkbox criteria"] else []) ++
      (if hasOutOfScope then ["Out of Scope section found"] else []) }

structure ClarityDetection where
  hasActionVerbs : Bool
  actionVerbCount : Nat
  hasMetrics : Bool
  metricsCount : Nat
  hasThresholds : Bool
  indicators : List String

/-- `detectClarity` of `validator.js`. -/
def detectClarity (text : String) : ClarityDetection :=
  let actionVerbMatches := jsMatch actionVerbs text
  let metricsMatches := jsMatch metricsPattern text
  let thresholdMatches := jsMatch thresholdPattern text
  { hasActionVerbs := decide (0 < actionVerbMatches.length)
    actionVerbCount := actionVerbMatches.length
    hasMetrics := decide (0 < metricsMatches.length)
    metricsCount := metricsMatches.length
    hasThresholds := decide (0 < thresholdMatches.length)
    indicators :=
      (if 0 < actionVerbMatches.length then
        [toString actionVerbMatches.length ++ " action verbs"] else []) ++
      (if 0 < metricsMatches.length then
        [toString metricsMatches.length ++ " measurable metrics"] else []) ++
      (if 0 < thresholdMatches.length then
        ["Specific thresholds defined"] else []) }

structure TestabilityDetection where
  vagueTermCount : Nat
  vagueTerms : List String
  hasUserStoryAntiPattern : Bool
  hasGherkinAntiPattern : Bool
  hasCompoundCriteria : Bool
  hasImplementationDetails : Bool
  implementationTerms : List String
  hasIssues : Bool
  indicators : List String

/-- `detectTestability` of `validator.js`. -/
def detectTestability (text : String) : TestabilityDetection :=
  let vagueMatches := jsMatch vagueTerms text
  let hasUserStory := jsTest userStoryPattern text
  let hasGherkin := jsTest gherkinPattern text
  let hasCompound := jsTest compoundPattern text
  let implementationMatches := jsMatch implementationPattern text
  { vagueTermCount := vagueMatches.length
    vagueTerms := uniq (vagueMatches.map lowerStr)
    hasUserStoryAntiPattern := hasUserStory
    hasGherkinAntiPattern := hasGherkin
    hasCompoundCriteria := hasCompound
    hasImplementationDetails := decide (0 < implementationMatches.length)
    implementationTerms := uniq (implementationMatches.map lowerStr)
    hasIssues := decide (0 < vagueMatches.length) || hasUserStory ||
      hasGherkin || decide (0 < implementationMatches.length)
    indicators :=
      (if 0 < vagueMatches.length then
        [toString vagueMatches.length ++ " vague terms found"] else []) ++
      (if hasUserStory then
        ["User story syntax detected (use checkboxes instead)"] else []) ++
      (if hasGherkin then
        ["Gherkin syntax detected (use simple checkboxes)"] else []) ++
      (if hasCompound then
        ["Compound criteria found (split into separate items)"] else []) ++
      (if 0 < implementationMatches.length then
        ["Implementation details found: " ++
          String.intercalate ", " (implementationMatches.take 3)] else []) }

structure CompletenessDetection where
  criterionCount : Nat
  hasErrorCases : Bool
  errorCaseCount : Nat
  hasEdgeCases : Bool
  edgeCaseCount : Nat
  hasPermissions : Bool
  indicators : List String

/-- `detectCompleteness` of `validator.js`. -/
def detectCompleteness (text : String) : CompletenessDetection :=
  let checkboxMatches := jsMatch checkboxPattern text
  let errorCaseMatches := jsMatch errorCasePattern text
  let edgeCaseMatches := jsMatch edgeCasePattern text
  let permissionMatches := jsMatch permissionPattern text
  { criterionCount := checkboxMatches.length
    hasErrorCases := decide (0 < errorCaseMatches.length)
    errorCaseCount := errorCaseMatches.length
    hasEdgeCases := decide (0 < edgeCaseMatches.length)
    edgeCaseCount := edgeCaseMatches.length
    hasPermissions := decide (0 < permissionMatches.length)
    indicators :=
      (if 3 ≤ checkboxMatches.length ∧ checkboxMatches.length ≤ 7 then
        ["Good criterion count (3-7)"] else []) ++
      (if checkboxMatches.length < 3 then
        ["Too few criteria (add more)"] else []) ++
      (if 7 < checkboxMatches.length then
        ["Too many criteria (consider splitting)"] else []) ++
      (if 0 < errorCaseMatches.length then ["Error cases covered"] else []) ++
      (if 0 < edgeCaseMatches.length then ["Edge cases addressed"] else []) }

/-- One entry of `REQUIRED_SECTIONS`. -/
structure SectionSpec where
  pat : RE
  name : String
  weight : Int

/-- `REQUIRED_SECTIONS` of `validator.js`. -/
def REQUIRED_SECTIONS : List SectionSpec :=
  [⟨sectionPattern, "Summary", 3⟩,
   ⟨acceptanceCriteriaPattern, "Acceptance Criteria", 4⟩,
   ⟨outOfScopePattern, "Out of Scope", 2⟩]

structure SectionsDetection where
  found : List (String × Int)
  missing : List (String × Int)

/-- `detectSections` of `validator.js`. -/
def detectSections (text : String) : SectionsDetection :=
  { found := (REQUIRED_SECTIONS.filter (fun sec => jsTest sec.pat text)).map
      (fun sec => (sec.name, sec.weight))
    missing := (REQUIRED_SECTIONS.filter (fun sec => !jsTest sec.pat text)).map
      (fun sec => (sec.name, sec.weight)) }

/-! ## Scoring functions -/

structure DimensionScore where
  score : Int
  maxScore : Int
  issues : List String
  strengths : List String

/-- The scoring body of `scoreStructure` of `validator.js` (25 pts max),
as a function of the detection record it computes first. -/
def scoreStructureOf (detection : StructureDetection) : DimensionScore :=
  let maxScore : Int := 25
  let summaryScore : Int := if detection.hasSummary then 10 else 0
  let summaryIssues : List String :=
    if detection.hasSummary then []
    else ["Add a Summary section describing the feature/change"]
  let summaryStrengths : List String :=
    if detection.hasSummary then ["Summary section present"] else []
  let checkboxScore : Int :=
    if 3 ≤ detection.checkboxCount then 10
    else if 0 < detection.checkboxCount then 5 else 0
  let checkboxIssues : List String :=
    if 3 ≤ detection.checkboxCount then []
    else if 0 < detection.checkboxCount then
      ["Add more checkbox criteria (recommend 3-7)"]
    else ["Missing checkbox criteria - use \"- [ ]\" format"]
  let checkboxStrengths : List String :=
    if 3 ≤ detection.checkboxCount then
      [toString detection.checkboxCount ++ " checkbox criteria found"] else []
  let oosScore : Int := if detection.hasOutOfScope then 5 else 0
  let oosIssues : List String :=
    if detection.hasOutOfScope then []
    else ["Add Out of Scope section to set clear boundaries"]
  let oosStrengths : List String :=
    if detection.hasOutOfScope then ["Out of Scope section present"] else []
  { score := min (summaryScore + checkboxScore + oosScore) maxScore
    maxScore := maxScore
    issues := summaryIssues ++ checkboxIssues ++ oosIssues
    strengths := summaryStrengths ++ checkboxStrengths ++ oosStrengths }

/-- `scoreStructure` of `validator.js`. -/
def scoreStructure (text : String) : DimensionScore :=
  scoreStructureOf (detectStructure text)

/-- The scoring body of `scoreClarity` of `validator.js` (30 pts max). -/
def scoreClarityOf (detection : ClarityDetection) : DimensionScore :=
  let maxScore : Int := 30
  let verbScore : Int :=
    if 5 ≤ detection.actionVerbCount then 15
    else if 3 ≤ detection.actionVerbCount then 10
    else if 0 < detection.actionVerbCount then 5 else 0
  let verbIssues : List String :=
    if 5 ≤ detection.actionVerbCount then []
    else if 3 ≤ detection.actionVerbCount then []
    else if 0 < detection.actionVerbCount then
      ["Add more action verbs (implement, create, display, validate, etc.)"]
    else ["Missing action verbs - criteria should describe testable behavior"]
  let verbStrengths : List String :=
    if 5 ≤ detection.actionVerbCount then
      [toString detection.actionVerbCount ++ " action verbs for testable behavior"]
    else if 3 ≤ detection.actionVerbCount then
      [toString detection.actionVerbCount ++ " action verbs found"]
    else []
  let metricScore : Int :=
    if 3 ≤ detection.metricsCount then 15
    else if 1 ≤ detection.metricsCount then 8 else 0
  let metricIssues : List String :=
    if 3 ≤ detection.metricsCount then []
    else if 1 ≤ detection.metricsCount then
      ["Add more measurable metrics (time limits, percentages, counts)"]
    else ["No measurable metrics - add specific numbers with units"]
  let metricStrengths : List String :=
    if 3 ≤ detection.metricsCount then
      [toString detection.metricsCount ++ " measurable metrics with units"]
    else []
  { score := min (verbScore + metricScore) maxScore
    maxScore := maxScore
    issues := verbIssues ++ metricIssues
    strengths := verbStrengths ++ metricStrengths }

/-- `scoreClarity` of `validator.js`. -/
def scoreClarity (text : String) : DimensionScore :=
  scoreClarityOf (detectClarity text)

/-- The scoring body of `scoreTestability` of `validator.js`
(25 pts max, deduction based). -/
def scoreTestabilityOf (detection : TestabilityDetection) : DimensionScore :=
  let maxScore : Int := 25
  let vagueDeduction : Int :=
    if detection.vagueTermCount = 0 then 0
    else if detection.vagueTermCount ≤ 2 then 5 else 15
  let vagueIssues : List String :=
    if detection.vagueTermCount = 0 then []
    else if detection.vagueTermCount ≤ 2 then
      ["Remove vague terms: " ++ String.intercalate ", " (detection.vagueTerms.take 2)]
    else
      [toString detection.vagueTermCount ++ " vague terms found: " ++
        String.intercalate ", " (detection.vagueTerms.take 3)]
  let vagueStrengths : List String :=
    if detection.vagueTermCount = 0 then
      ["No vague terms - criteria are specific"] else []
  let userStoryDeduction : Int := if detection.hasUserStoryAntiPattern then 5 else 0
  let userStoryIssues : List String :=
    if detection.hasUserStoryAntiPattern then
      ["Remove user story syntax - use simple checkboxes instead"] else []
  let gherkinDeduction : Int := if detection.hasGherkinAntiPattern then 5 else 0
  let gherkinIssues : List String :=
    if detection.hasGherkinAntiPattern then
      ["Remove Given/When/Then syntax - use simple checkboxes"] else []
  let compoundDeduction : Int := if detection.hasCompoundCriteria then 3 else 0
  let compoundIssues : List String :=
    if detection.hasCompoundCriteria then
      ["Split compound criteria (and/or) into separate items"] else []
  let implementationDeduction : Int :=
    if detection.hasImplementationDetails then 5 else 0
  let implementationIssues : List String :=
    if detection.hasImplementationDetails then
      ["Remove implementation details: " ++
        String.intercalate ", " (detection.implementationTerms.take 3)] else []
  let cleanStrengths : List String :=
    if !detection.hasIssues && !detection.hasCompoundCriteria then
      ["All criteria are binary verifiable"] else []
  let score : Int := 25 - vagueDeduction - userStoryDeduction -
    gherkinDeduction - compoundDeduction - implementationDeduction
  { score := max 0 (min score maxScore)
    maxScore := maxScore
    issues := vagueIssues ++ userStoryIssues ++ gherkinIssues ++
      compoundIssues ++ implementationIssues
    strengths := vagueStrengths ++ cleanStrengths }

/-- `scoreTestability` of `validator.js`. -/
def scoreTestability (text : String) : DimensionScore :=
  scoreTestabilityOf (detectTestability text)

/-- The scoring body of `scoreCompleteness` of `validator.js` (20 pts max). -/
def scoreCompletenessOf (detection : CompletenessDetection)
    (sections : SectionsDetection) : DimensionScore :=
  let maxScore : Int := 20
  let countScore : Int :=
    if 3 ≤ detection.criterionCount ∧ detection.criterionCount ≤ 7 then 8
    else if 7 < detection.criterionCount then 4
    else if 0 < detection.criterionCount then 4 else 0
  let countIssues : List String :=
    if 3 ≤ detection.criterionCount ∧ detection.criterionCount ≤ 7 then []
    else if 7 < detection.criterionCount then
      ["Too many criteria - consider splitting into smaller stories"]
    else if 0 < detection.criterionCount then
      ["Add more criteria (recommend 3-7 per story)"]
    else ["No checkbox criteria found"]
  let countStrengths : List String :=
    if 3 ≤ detection.criterionCount ∧ detection.criterionCount ≤ 7 then
      [toString detection.criterionCount ++ " criteria (ideal range 3-7)"] else []
  let caseScore : Int :=
    if detection.hasErrorCases && detection.hasEdgeCases then 6
    else if detection.hasErrorCases || detection.hasEdgeCases then 3 else 0
  let caseIssues : List String :=
    if detection.hasErrorCases && detection.hasEdgeCases then []
    else if detection.hasErrorCases || detection.hasEdgeCases then
      ["Consider adding more error/edge case handling"]
    else ["Add error handling and edge case criteria"]
  let caseStrengths : List String :=
    if detection.hasErrorCases && detection.hasEdgeCases then
      ["Error states and edge cases addressed"] else []
  let sectionScore : Int := (sections.found.map Prod.snd).sum
  let maxSectionScore : Int := (REQUIRED_SECTIONS.map SectionSpec.weight).sum
  let sectionPercentage : ℚ := (sectionScore : ℚ) / (maxSectionScore : ℚ)
  let secScore : Int :=
    if (0.9 : ℚ) ≤ sectionPercentage then 6
    else if (0.6 : ℚ) ≤ sectionPercentage then 3 else 0
  let secIssues : List String :=
    if (0.9 : ℚ) ≤ sectionPercentage then []
    else if (0.6 : ℚ) ≤ sectionPercentage then
      ["Missing sections: " ++
        String.intercalate ", " (sections.missing.map Prod.fst)]
    else ["Add required sections: Summary, Acceptance Criteria, Out of Scope"]
  let secStrengths : List String :=
    if (0.9 : ℚ) ≤ sectionPercentage then
      [toString sections.found.length ++ "/" ++
        toString REQUIRED_SECTIONS.length ++ " sections present"] else []
  { score := min (countScore + caseScore + secScore) maxScore
    maxScore := maxScore
    issues := countIssues ++ caseIssues ++ secIssues
    strengths := countStrengths ++ caseStrengths ++ secStrengths }

/-- `scoreCompleteness` of `validator.js`. -/
def scoreCompleteness (text : String) : DimensionScore :=
  scoreCompletenessOf (detectCompleteness text) (detectSections text)

/-! ## Validator (orchestrator) -/

/-- The contract of the slop detector (`getSlopPenalty` of
`slop-detection.js`).

Modelled from the spec: the module `slop-detection.js` is imported by
`validator.js` but is not part of the source tree; the spec specifies only
its contract — a pure function of the text returning a penalty magnitude
`penalty >= 0` and an ordered issue list, the exact phrase list being an
internal concern of that module.  The validator below is therefore
parameterised by an arbitrary such function. -/
structure SlopResult where
  penalty : ℚ
  issues : List String

/-- The `slopDetection` field of a validation result
(`{...slopPenalty, deduction, issues}`). -/
structure SlopDetection where
  penalty : ℚ
  deduction : Int
  issues : List String

/-- The JavaScript values `validateDocument` distinguishes: a string, `null`,
`undefined`, or some other non-string value (modelled by numbers and
booleans). -/
inductive JSVal where
  | str (s : String)
  | nullV
  | undefinedV
  | numV (q : ℚ)
  | boolV (b : Bool)

/-- The complete result object of `validateDocument`, including the alias
fields for `project-view.js` and `app.js` compatibility.  The degenerate
result of invalid input carries no `slopDetection` key, hence the `Option`. -/
structure ValidationResult where
  totalScore : Int
  «structure» : DimensionScore
  clarity : DimensionScore
  testability : DimensionScore
  completeness : DimensionScore
  businessValue : DimensionScore
  dimension1 : DimensionScore
  dimension2 : DimensionScore
  dimension3 : DimensionScore
  dimension4 : DimensionScore
  slopDetection : Option SlopDetection

/-- `emptyResult` of `validateDocument`. -/
def emptyResult : DimensionScore :=
  { score := 0, maxScore := 25, issues := ["No content to validate"], strengths := [] }

/-- The fixed result returned on the `!text || typeof text !== 'string'`
guard, built before any detector or scorer is consulted. -/
def degenerateResult : ValidationResult :=
  let structureR := { emptyResult with maxScore := 25 }
  let clarityR := { emptyResult with maxScore := 30 }
  let testabilityR := { emptyResult with maxScore := 25 }
  let completenessR := { emptyResult with maxScore := 20 }
  { totalScore := 0
    «structure» := structureR
    clarity := clarityR
    testability := testabilityR
    completeness := completenessR
    businessValue := testabilityR
    dimension1 := structureR
    dimension2 := clarityR
    dimension3 := testabilityR
    dimension4 := completenessR
    slopDetection := none }

/-- Does the input take the degenerate path?  In the JavaScript guard
`!text || typeof text !== 'string'` this is every non-string value together
with the (falsy) empty string. -/
def degenerateInput : JSVal → Bool
  | .str s => s == ""
  | _ => true

/-- `validateDocument` of `validator.js`, parameterised by the slop detector
`getSlopPenalty` (see `SlopResult`). -/
def validateDocument (getSlopPenalty : String → SlopResult) (text : JSVal) :
    ValidationResult :=
  match text with
  | .str s =>
    if s = "" then degenerateResult
    else
      let structureR := scoreStructure s
      let clarityR := scoreClarity s
      let testabilityR := scoreTestability s
      let completenessR := scoreCompleteness s
      let slopPenalty := getSlopPenalty s
      let slopDeduction : Int :=
        if 0 < slopPenalty.penalty then
          min 5 ⌊slopPenalty.penalty * (0.6 : ℚ)⌋ else 0
      let slopIssues : List String :=
        if 0 < slopPenalty.penalty then
          (if 0 < slopPenalty.issues.length then slopPenalty.issues.take 2 else [])
        else []
      let totalScore : Int := max 0 (structureR.score + clarityR.score +
        testabilityR.score + completenessR.score - slopDeduction)
      { totalScore := totalScore
        «structure» := structureR
        clarity := clarityR
        testability := testabilityR
        completeness := completenessR
        businessValue := testabilityR
        dimension1 := structureR
        dimension2 := clarityR
        dimension3 := testabilityR
        dimension4 := completenessR
        slopDetection := some ⟨slopPenalty.penalty, slopDeduction, slopIssues⟩ }
  | _ => degenerateResult

/-! ## Presentation helpers -/

/-- `getGrade` of `validator.js`. -/
def getGrade (score : Int) : String :=
  if 90 ≤ score then "A"
  else if 80 ≤ score then "B"
  else if 70 ≤ score then "C"
  else if 60 ≤ score then "D"
  else "F"

/-- `getScoreColor` of `validator.js`: percentage based, with thresholds
80/60/40 (the `maxScore` argument defaults to 100 at the call sites this
models). -/
def getScoreColor (score maxScore : ℚ) : String :=
  let percentage := score / maxScore * 100
  if 80 ≤ percentage then "text-green-400"
  else if 60 ≤ percentage then "text-yellow-400"
  else if 40 ≤ percentage then "text-orange-400"
  else "text-red-400"

/-- `getScoreLabel` of `validator.js`. -/
def getScoreLabel (score : Int) : String :=
  if 80 ≤ score then "Excellent"
  else if 70 ≤ score then "Ready"
  else if 50 ≤ score then "Needs Work"
  else if 30 ≤ score then "Draft"
  else "Incomplete"

namespace Inline

/-- `getScoreColor` of `src/shared/js/validator-inline.js`: direct
thresholds 70/50/30 on the total score. -/
def getScoreColor (score : Int) : String :=
  if 70 ≤ score then "green"
  else if 50 ≤ score then "yellow"
  else if 30 ≤ score then "orange"
  else "red"

end Inline

/-! ## Regex state threading

JavaScript regex objects carry a mutable `lastIndex`.  The source's
module-level pattern constants are therefore the only state shared between
calls of `validateDocument`.  `String.prototype.match` on a `g`-flagged
regex ignores the incoming `lastIndex` and leaves it at 0;
`RegExp.prototype.test` on the source's non-`g` regexes neither reads nor
writes it.  The state-threaded variants below make that explicit so that
determinism across successive calls is a theorem rather than an artifact of
a stateless embedding. -/

/-- `lastIndex` of each `g`-flagged pattern constant of `validator.js`. -/
structure RegexStates where
  checkboxLI : Nat
  actionVerbsLI : Nat
  metricsLI : Nat
  thresholdLI : Nat
  vagueLI : Nat
  implementationLI : Nat
  errorCaseLI : Nat
  edgeCaseLI : Nat
  permissionLI : Nat

/-- `text.match(re)` for a `g`-flagged regex: the incoming `lastIndex` is
ignored (it is reset to 0 before scanning) and ends at 0. -/
def jsMatchS (re : RE) (s : String) (_lastIndex : Nat) : List String × Nat :=
  (jsMatch re s, 0)

/-- State-threaded `detectStructure`. -/
def detectStructureS (text : String) (st : RegexStates) :
    StructureDetection × RegexStates :=
  let hasSummary := jsTest sectionPattern text
  let cb := jsMatchS checkboxPattern text st.checkboxLI
  let checkboxMatches := cb.1
  let hasOutOfScope := jsTest outOfScopePattern text
  ({ hasSummary := hasSummary
     hasCheckboxes := decide (0 < checkboxMatches.length)
     checkboxCount := checkboxMatches.length
     hasOutOfScope := hasOutOfScope
     indicators :=
       (if hasSummary then ["Summary section found"] else []) ++
       (if 0 < checkboxMatches.length then
         [toString checkboxMatches.length ++ " checkbox criteria"] else []) ++
       (if hasOutOfScope then ["Out of Scope section found"] else []) },
   { st with checkboxLI := cb.2 })

/-- State-threaded `detectClarity`. -/
def detectClarityS (text : String) (st : RegexStates) :
    ClarityDetection × RegexStates :=
  let av := jsMatchS actionVerbs text st.actionVerbsLI
  let actionVerbMatches := av.1
  let me := jsMatchS metricsPattern text st.metricsLI
  let metricsMatches := me.1
  let th := jsMatchS thresholdPattern text st.thresholdLI
  let thresholdMatches := th.1
  ({ hasActionVerbs := decide (0 < actionVerbMatches.length)
     actionVerbCount := actionVerbMatches.length
     hasMetrics := decide (0 < metricsMatches.length)
     metricsCount := metricsMatches.length
     hasThresholds := decide (0 < thresholdMatches.length)
     indicators :=
       (if 0 < actionVerbMatches.length then
         [toString actionVerbMatches.length ++ " action verbs"] else []) ++
       (if 0 < metricsMatches.length then
         [toString metricsMatches.length ++ " measurable metrics"] else []) ++
       (if 0 < thresholdMatches.length then
         ["Specific thresholds defined"] else []) },
   { st with actionVerbsLI := av.2, metricsLI := me.2, thresholdLI := th.2 })

/-- State-threaded `detectTestability`. -/
def detectTestabilityS (text : String) (st : RegexStates) :
    TestabilityDetection × RegexStates :=
  let va := jsMatchS vagueTerms text st.vagueLI
  let vagueMatches := va.1
  let hasUserStory := jsTest userStoryPattern text
  let hasGherkin := jsTest gherkinPattern text
  let hasCompound := jsTest compoundPattern text
  let im := jsMatchS implementationPattern text st.implementationLI
  let implementationMatches := im.1
  ({ vagueTermCount := vagueMatches.length
     vagueTerms := uniq (vagueMatches.map lowerStr)
     hasUserStoryAntiPattern := hasUserStory
     hasGherkinAntiPattern := hasGherkin
     hasCompoundCriteria := hasCompound
     hasImplementationDetails := decide (0 < implementationMatches.length)
     implementationTerms := uniq (implementationMatches.map lowerStr)
     hasIssues := decide (0 < vagueMatches.length) || hasUserStory ||
       hasGherkin || decide (0 < implementationMatches.length)
     indicators :=
       (if 0 < vagueMatches.length then
         [toString vagueMatches.length ++ " vague terms found"] else []) ++
       (if hasUserStory then
         ["User story syntax detected (use checkboxes instead)"] else []) ++
       (if hasGherkin then
         ["Gherkin syntax detected (use simple checkboxes)"] else []) ++
       (if hasCompound then
         ["Compound criteria found (split into separate items)"] else []) ++
       (if 0 < implementationMatches.length then
         ["Implementation details found: " ++
           String.intercalate ", " (implementationMatches.take 3)] else []) },
   { st with vagueLI := va.2, implementationLI := im.2 })

/-- State-threaded `detectCompleteness`. -/
def detectCompletenessS (text : String) (st : RegexStates) :
    CompletenessDetection × RegexStates :=
  let cb := jsMatchS checkboxPattern text st.checkboxLI
  let checkboxMatches := cb.1
  let er := jsMatchS errorCasePattern text st.errorCaseLI
  let errorCaseMatches := er.1
  let ed := jsMatchS edgeCasePattern text st.edgeCaseLI
  let edgeCaseMatches := ed.1
  let pe := jsMatchS permissionPattern text st.permissionLI
  let permissionMatches := pe.1
  ({ criterionCount := checkboxMatches.length
     hasErrorCases := decide (0 < errorCaseMatches.length)
     errorCaseCount := errorCaseMatches.length
     hasEdgeCases := decide (0 < edgeCaseMatches.length)
     edgeCaseCount := edgeCaseMatches.length
     hasPermissions := decide (0 < permissionMatches.length)
     indicators :=
       (if 3 ≤ checkboxMatches.length ∧ checkboxMatches.length ≤ 7 then
         ["Good criterion count (3-7)"] else []) ++
       (if checkboxMatches.length < 3 then
         ["Too few criteria (add more)"] else []) ++
       (if 7 < checkboxMatches.length then
         ["Too many criteria (consider splitting)"] else []) ++
       (if 0 < errorCaseMatches.length then ["Error cases covered"] else []) ++
       (if 0 < edgeCaseMatches.length then ["Edge cases addressed"] else []) },
   { st with
      checkboxLI := cb.2
      errorCaseLI := er.2
      edgeCaseLI := ed.2
      permissionLI := pe.2 })

/-- State-threaded `scoreStructure`. -/
def scoreStructureS (text : String) (st : RegexStates) :
    DimensionScore × RegexStates :=
  let d := detectStructureS text st
  (scoreStructureOf d.1, d.2)

/-- State-threaded `scoreClarity`. -/
def scoreClarityS (text : String) (st : RegexStates) :
    DimensionScore × RegexStates :=
  let d := detectClarityS text st
  (scoreClarityOf d.1, d.2)

/-- State-threaded `scoreTestability`. -/
def scoreTestabilityS (text : String) (st : RegexStates) :
    DimensionScore × RegexStates :=
  let d := detectTestabilityS text st
  (scoreTestabilityOf d.1, d.2)

/-- State-threaded `scoreCompleteness` (`detectSections` only uses
non-global `test`, so it touches no state). -/
def scoreCompletenessS (text : String) (st : RegexStates) :
    DimensionScore × RegexStates :=
  let d := detectCompletenessS text st
  (scoreCompletenessOf d.1 (detectSections text), d.2)

/-- State-threaded `validateDocument`: the module-level regex `lastIndex`
state is passed in and returned, exactly as the shared pattern constants
persist between calls in the JavaScript module. -/
def validateDocumentS (getSlopPenalty : String → SlopResult) (text : JSVal)
    (st : RegexStates) : ValidationResult × RegexStates :=
  match text with
  | .str s =>
    if s = "" then (degenerateResult, st)
    else
      let p1 := scoreStructureS s st
      let p2 := scoreClarityS s p1.2
      let p3 := scoreTestabilityS s p2.2
      let p4 := scoreCompletenessS s p3.2
      let structureR := p1.1
      let clarityR := p2.1
      let testabilityR := p3.1
      let completenessR := p4.1
      let slopPenalty := getSlopPenalty s
      let slopDeduction : Int :=
        if 0 < slopPenalty.penalty then
          min 5 ⌊slopPenalty.penalty * (0.6 : ℚ)⌋ else 0
      let slopIssues : List String :=
        if 0 < slopPenalty.penalty then
          (if 0 < slopPenalty.issues.length then slopPenalty.issues.take 2 else [])
        else []
      let totalScore : Int := max 0 (structureR.score + clarityR.score +
        testabilityR.score + completenessR.score - slopDeduction)
      ({ totalScore := totalScore
         «structure» := structureR
         clarity := clarityR
         testability := testabilityR
         completeness := completenessR
         businessValue := testabilityR
         dimension1 := structureR
         dimension2 := clarityR
         dimension3 := testabilityR
         dimension4 := completenessR
         slopDetection := some ⟨slopPenalty.penalty, slopDeduction, slopIssues⟩ },
       p4.2)
  | _ => (degenerateResult, st)

/-- A sample slop detector satisfying the spec contract, used to instantiate
witness theorems. -/
def sampleSlop : String → SlopResult := fun _ => { penalty := 2, issues := [] }

/-! # Theorems -/

theorem scoreStructureOf_score_bounds (d : StructureDetection) :
    0 ≤ (scoreStructureOf d).score ∧ (scoreStructureOf d).score ≤ 25 := by
  unfold scoreStructureOf
  dsimp only
  split_ifs <;> omega

theorem scoreStructure_score_bounds (t : String) :
    0 ≤ (scoreStructure t).score ∧ (scoreStructure t).score ≤ 25 :=
  scoreStructureOf_score_bounds (detectStructure t)

theorem scoreClarityOf_score_bounds (d : ClarityDetection) :
    0 ≤ (scoreClarityOf d).score ∧ (scoreClarityOf d).score ≤ 30 := by
  unfold scoreClarityOf
  dsimp only
  split_ifs <;> omega

theorem scoreClarity_score_bounds (t : String) :
    0 ≤ (scoreClarity t).score ∧ (scoreClarity t).score ≤ 30 :=
  scoreClarityOf_score_bounds (detectClarity t)

theorem scoreTestabilityOf_score_bounds (d : TestabilityDetection) :
    0 ≤ (scoreTestabilityOf d).score ∧ (scoreTestabilityOf d).score ≤ 25 := by
  unfold scoreTestabilityOf
  dsimp only
  split_ifs <;> omega

theorem scoreTestability_score_bounds (t : String) :
    0 ≤ (scoreTestability t).score ∧ (scoreTestability t).score ≤ 25 :=
  scoreTestabilityOf_score_bounds (detectTestability t)

theorem scoreCompletenessOf_score_bounds (d : CompletenessDetection)
    (secs : SectionsDetection) :
    0 ≤ (scoreCompletenessOf d secs).score ∧
      (scoreCompletenessOf d secs).score ≤ 20 := by
  unfold scoreCompletenessOf
  dsimp only
  split_ifs <;> omega

theorem scoreCompleteness_score_bounds (t : String) :
    0 ≤ (scoreCompleteness t).score ∧ (scoreCompleteness t).score ≤ 20 :=
  scoreCompletenessOf_score_bounds (detectCompleteness t) (detectSections t)

/-- The slop deduction computed by the orchestrator is between 0 and 5 for
any penalty. -/
theorem slopDeduction_bounds (p : ℚ) :
    0 ≤ (if 0 < p then min 5 ⌊p * (0.6 : ℚ)⌋ else (0 : ℤ)) ∧
      (if 0 < p then min 5 ⌊p * (0.6 : ℚ)⌋ else (0 : ℤ)) ≤ 5 := by
  split_ifs with h
  · refine ⟨le_min (by norm_num) ?_, min_le_left _ _⟩
    exact Int.floor_nonneg.mpr (by positivity)
  · exact ⟨le_refl _, by norm_num⟩

/-- C3: for every input (string or not), the returned `totalScore` lies in
`[0, 100]` and each of the four dimension records satisfies
`0 ≤ score ≤ maxScore` with the fixed maxima 25 (Structure), 30 (Clarity),
25 (Testability) and 20 (Completeness). -/
theorem C3_range_invariant (sp : String → SlopResult) (v : JSVal) :
    (0 ≤ (validateDocument sp v).totalScore ∧
      (validateDocument sp v).totalScore ≤ 100) ∧
    (0 ≤ (validateDocument sp v).«structure».score ∧
      (validateDocument sp v).«structure».score ≤
        (validateDocument sp v).«structure».maxScore ∧
      (validateDocument sp v).«structure».maxScore = 25) ∧
    (0 ≤ (validateDocument sp v).clarity.score ∧
      (validateDocument sp v).clarity.score ≤
        (validateDocument sp v).clarity.maxScore ∧
      (validateDocument sp v).clarity.maxScore = 30) ∧
    (0 ≤ (validateDocument sp v).testability.score ∧
      (validateDocument sp v).testability.score ≤
        (validateDocument sp v).testability.maxScore ∧
      (validateDocument sp v).testability.maxScore = 25) ∧
    (0 ≤ (validateDocument sp v).completeness.score ∧
      (validateDocument sp v).completeness.score ≤
        (validateDocument sp v).completeness.maxScore ∧
      (validateDocument sp v).completeness.maxScore = 20) := by
  have hdeg :
      (0 ≤ degenerateResult.totalScore ∧ degenerateResult.totalScore ≤ 100) ∧
      (0 ≤ degenerateResult.«structure».score ∧
        degenerateResult.«structure».score ≤ degenerateResult.«structure».maxScore ∧
        degenerateResult.«structure».maxScore = 25) ∧
      (0 ≤ degenerateResult.clarity.score ∧
        degenerateResult.clarity.score ≤ degenerateResult.clarity.maxScore ∧
        degenerateResult.clarity.maxScore = 30) ∧
      (0 ≤ degenerateResult.testability.score ∧
        degenerateResult.testability.score ≤ degenerateResult.testability.maxScore ∧
        degenerateResult.testability.maxScore = 25) ∧
      (0 ≤ degenerateResult.completeness.score ∧
        degenerateResult.completeness.score ≤ degenerateResult.completeness.maxScore ∧
        degenerateResult.completeness.maxScore = 20) := by
    refine ⟨⟨?_, ?_⟩, ⟨?_, ?_, ?_⟩, ⟨?_, ?_, ?_⟩, ⟨?_, ?_, ?_⟩, ⟨?_, ?_, ?_⟩⟩ <;> decide
  cases v with
  | str s =>
    by_cases hs : s = ""
    · simpa [validateDocument, hs] using hdeg
    · have h1 := scoreStructure_score_bounds s
      have h2 := scoreClarity_score_bounds s
      have h3 := scoreTestability_score_bounds s
      have h4 := scoreCompleteness_score_bounds s
      have h5 := slopDeduction_bounds ((sp s).penalty)
      have m1 : (scoreStructure s).maxScore = 25 := rfl
      have m2 : (scoreClarity s).maxScore = 30 := rfl
      have m3 : (scoreTestability s).maxScore = 25 := rfl
      have m4 : (scoreCompleteness s).maxScore = 20 := rfl
      simp only [validateDocument, hs, if_neg, reduceIte]
      refine ⟨⟨?_, ?_⟩, ⟨h1.1, ?_, rfl⟩, ⟨h2.1, ?_, rfl⟩, ⟨h3.1, ?_, rfl⟩,
        ⟨h4.1, ?_, rfl⟩⟩ <;> omega
  | nullV => simpa [validateDocument] using hdeg
  | undefinedV => simpa [validateDocument] using hdeg
  | numV q => simpa [validateDocument] using hdeg
  | boolV b => simpa [validateDocument] using hdeg

/-- C1: for every string input, `totalScore` equals
`max 0 (structure.score + clarity.score + testability.score +
completeness.score - deduction)` with
`deduction = min 5 ⌊penalty * 0.6⌋`; the deduction never exceeds 5 and the
total never exceeds 100.  (The spec guarantees the slop penalty is
non-negative, which is the hypothesis.) -/
theorem C1_totalScore_formula (sp : String → SlopResult) (text : String)
    (hp : 0 ≤ (sp text).penalty) :
    (validateDocument sp (.str text)).totalScore =
      max 0 ((validateDocument sp (.str text)).«structure».score +
        (validateDocument sp (.str text)).clarity.score +
        (validateDocument sp (.str text)).testability.score +
        (validateDocument sp (.str text)).completeness.score -
        min 5 ⌊(sp text).penalty * (0.6 : ℚ)⌋) ∧
    min 5 ⌊(sp text).penalty * (0.6 : ℚ)⌋ ≤ 5 ∧
    (validateDocument sp (.str text)).totalScore ≤ 100 := by
  have hfl : (0 : ℤ) ≤ ⌊(sp text).penalty * (0.6 : ℚ)⌋ :=
    Int.floor_nonneg.mpr (by positivity)
  have hded : (if 0 < (sp text).penalty then
      min 5 ⌊(sp text).penalty * (0.6 : ℚ)⌋ else (0 : ℤ)) =
      min 5 ⌊(sp text).penalty * (0.6 : ℚ)⌋ := by
    split_ifs with h
    · rfl
    · have h0 : (sp text).penalty = 0 := le_antisymm (not_lt.mp h) hp
      rw [h0]
      norm_num
  by_cases hs : text = ""
  · subst hs
    refine ⟨?_, min_le_left _ _, ?_⟩
    · have : (validateDocument sp (.str "")) = degenerateResult := by
        simp [validateDocument]
      rw [this]
      show (0 : ℤ) = max 0 (0 + 0 + 0 + 0 - min 5 ⌊(sp "").penalty * (0.6 : ℚ)⌋)
      omega
    · have : (validateDocument sp (.str "")) = degenerateResult := by
        simp [validateDocument]
      rw [this]
      decide
  · have h1 := scoreStructure_score_bounds text
    have h2 := scoreClarity_score_bounds text
    have h3 := scoreTestability_score_bounds text
    have h4 := scoreCompleteness_score_bounds text
    simp only [validateDocument, hs, if_neg, reduceIte]
    rw [hded]
    refine ⟨rfl, min_le_left _ _, ?_⟩
    omega

/-- C1 witness: the formula instantiated at the sample slop detector and the
one-character document. -/
theorem C1_totalScore_formula_witness :
    0 ≤ (sampleSlop "x").penalty ∧
    ((validateDocument sampleSlop (.str "x")).totalScore =
      max 0 ((validateDocument sampleSlop (.str "x")).«structure».score +
        (validateDocument sampleSlop (.str "x")).clarity.score +
        (validateDocument sampleSlop (.str "x")).testability.score +
        (validateDocument sampleSlop (.str "x")).completeness.score -
        min 5 ⌊(sampleSlop "x").penalty * (0.6 : ℚ)⌋) ∧
      min 5 ⌊(sampleSlop "x").penalty * (0.6 : ℚ)⌋ ≤ 5 ∧
      (validateDocument sampleSlop (.str "x")).totalScore ≤ 100) :=
  ⟨by norm_num [sampleSlop],
   C1_totalScore_formula sampleSlop "x" (by norm_num [sampleSlop])⟩

/-- C2: on `null`, `undefined`, the empty string, and every non-string
value, `validateDocument` returns the fixed degenerate record — zero total,
zero dimension scores, the standard issue — a constant built without
consulting any detector or scorer. -/
theorem C2_degenerate_path (sp : String → SlopResult) (v : JSVal)
    (h : degenerateInput v = true) :
    validateDocument sp v = degenerateResult ∧
    (validateDocument sp v).totalScore = 0 ∧
    (validateDocument sp v).«structure».score = 0 ∧
    (validateDocument sp v).clarity.score = 0 ∧
    (validateDocument sp v).testability.score = 0 ∧
    (validateDocument sp v).completeness.score = 0 ∧
    (validateDocument sp v).«structure».issues = ["No content to validate"] ∧
    (validateDocument sp v).clarity.issues = ["No content to validate"] ∧
    (validateDocument sp v).testability.issues = ["No content to validate"] ∧
    (validateDocument sp v).completeness.issues = ["No content to validate"] := by
  have hmain : validateDocument sp v = degenerateResult := by
    cases v with
    | str s =>
      have hs : s = "" := by simpa [degenerateInput] using h
      simp [validateDocument, hs]
    | nullV => rfl
    | undefinedV => rfl
    | numV q => rfl
    | boolV b => rfl
  rw [hmain]
  exact ⟨rfl, rfl, rfl, rfl, rfl, rfl, rfl, rfl, rfl, rfl⟩

/-- C2 witness: instantiated at `null`. -/
theorem C2_degenerate_path_witness :
    degenerateInput JSVal.nullV = true ∧
    (validateDocument sampleSlop JSVal.nullV = degenerateResult ∧
     (validateDocument sampleSlop JSVal.nullV).totalScore = 0 ∧
     (validateDocument sampleSlop JSVal.nullV).«structure».score = 0 ∧
     (validateDocument sampleSlop JSVal.nullV).clarity.score = 0 ∧
     (validateDocument sampleSlop JSVal.nullV).testability.score = 0 ∧
     (validateDocument sampleSlop JSVal.nullV).completeness.score = 0 ∧
     (validateDocument sampleSlop JSVal.nullV).«structure».issues =
       ["No content to validate"] ∧
     (validateDocument sampleSlop JSVal.nullV).clarity.issues =
       ["No content to validate"] ∧
     (validateDocument sampleSlop JSVal.nullV).testability.issues =
       ["No content to validate"] ∧
     (validateDocument sampleSlop JSVal.nullV).completeness.issues =
       ["No content to validate"]) :=
  ⟨rfl, C2_degenerate_path sampleSlop JSVal.nullV rfl⟩

/-- The result component of the state-threaded validator does not depend on
the incoming regex `lastIndex` state. -/
theorem validateDocumentS_fst (sp : String → SlopResult) (v : JSVal)
    (st : RegexStates) :
    (validateDocumentS sp v st).1 = validateDocument sp v := by
  cases v with
  | str s =>
    by_cases hs : s = ""
    · simp only [validateDocumentS, validateDocument, hs, reduceIte]
    · simp only [validateDocumentS, validateDocument, hs, reduceIte]
      rfl
  | nullV => rfl
  | undefinedV => rfl
  | numV q => rfl
  | boolV b => rfl

/-- C9: determinism.  Threading the mutable `lastIndex` state of the shared
pattern constants through a call, the result is independent of the incoming
state, and a second call on the state left by the first returns the identical
result. -/
theorem C9_determinism (sp : String → SlopResult) (v : JSVal)
    (st : RegexStates) :
    (validateDocumentS sp v st).1 = validateDocument sp v ∧
    (validateDocumentS sp v (validateDocumentS sp v st).2).1 =
      (validateDocumentS sp v st).1 := by
  refine ⟨validateDocumentS_fst sp v st, ?_⟩
  rw [validateDocumentS_fst, validateDocumentS_fst]

/-- C10: every result additionally carries `businessValue` identical to the
testability record and `dimension1` … `dimension4` identical to the
structure, clarity, testability and completeness records, on the degenerate
path included. -/
theorem C10_alias_fields (sp : String → SlopResult) (v : JSVal) :
    (validateDocument sp v).businessValue = (validateDocument sp v).testability ∧
    (validateDocument sp v).dimension1 = (validateDocument sp v).«structure» ∧
    (validateDocument sp v).dimension2 = (validateDocument sp v).clarity ∧
    (validateDocument sp v).dimension3 = (validateDocument sp v).testability ∧
    (validateDocument sp v).dimension4 = (validateDocument sp v).completeness := by
  cases v with
  | str s =>
    by_cases hs : s = ""
    · subst hs
      exact ⟨rfl, rfl, rfl, rfl, rfl⟩
    · simp [validateDocument, if_neg hs]
  | nullV => exact ⟨rfl, rfl, rfl, rfl, rfl⟩
  | undefinedV => exact ⟨rfl, rfl, rfl, rfl, rfl⟩
  | numV q => exact ⟨rfl, rfl, rfl, rfl, rfl⟩
  | boolV b => exact ⟨rfl, rfl, rfl, rfl, rfl⟩

/-- C4: the Testability score starts at 25 and is reduced by the tiered
vague-term deduction (0 / −5 for 1–2 / −15 for ≥3 raw matches) and the four
anti-pattern deductions (−5 user story, −5 Gherkin, −3 compound, −5
implementation details), floored at 0 and capped at 25; the raw match count
— not the number of distinct vague terms — selects the tier, as the input
`"fast fast fast"` (3 raw matches of 1 distinct term, scoring the −15 tier)
shows. -/
theorem C4_testability_deductions (text : String) :
    (scoreTestability text).score =
      max 0 (min (25 -
        (if (detectTestability text).vagueTermCount = 0 then 0
         else if (detectTestability text).vagueTermCount ≤ 2 then 5 else 15) -
        (if (detectTestability text).hasUserStoryAntiPattern then 5 else 0) -
        (if (detectTestability text).hasGherkinAntiPattern then 5 else 0) -
        (if (detectTestability text).hasCompoundCriteria then 3 else 0) -
        (if (detectTestability text).hasImplementationDetails then 5 else 0)) 25) ∧
    (detectTestability "fast fast fast").vagueTermCount = 3 ∧
    (detectTestability "fast fast fast").vagueTerms = ["fast"] ∧
    (scoreTestability "fast fast fast").score = 10 := by
  refine ⟨rfl, ?_, ?_, ?_⟩ <;> decide

/-- C5: the Gherkin anti-pattern flag requires `given`/`when`/`then` at the
start of a line (or checkbox item): `"when the button is clicked"` embedded
mid-sentence does not set it, while `"Given I am on the login page"` at the
start of a line does. -/
theorem C5_gherkin_precision :
    (detectTestability
      "The dialog closes when the button is clicked.").hasGherkinAntiPattern
      = false ∧
    (detectTestability "Given I am on the login page").hasGherkinAntiPattern
      = true := by
  constructor <;> decide

/-- C6: a number counts as a Clarity metric only with a recognised unit:
`"handle 500 connections"` yields at least one metric, `"handle 500"` yields
none. -/
theorem C6_metric_unit_requirement :
    1 ≤ (detectClarity "handle 500 connections").metricsCount ∧
    (detectClarity "handle 500").metricsCount = 0 := by
  constructor <;> decide

/-- The `hasIssues` flag of a testability detection is exactly the
disjunction of its vague-term, user-story, Gherkin and
implementation-details signals (the compound flag is not part of it). -/
theorem detectTestability_hasIssues (t : String) :
    (detectTestability t).hasIssues =
      (decide (0 < (detectTestability t).vagueTermCount) ||
       (detectTestability t).hasUserStoryAntiPattern ||
       (detectTestability t).hasGherkinAntiPattern ||
       (detectTestability t).hasImplementationDetails) := rfl

/-- C7 counterexample: `"As a user, I want magic."` has no vague terms and
no compound criteria, yet — because the user-story anti-pattern is present —
`scoreTestability` records neither the claimed strength wording nor the
source wording in its strengths list. -/
theorem C7_counterexample :
    (detectTestability "As a user, I want magic.").vagueTermCount = 0 ∧
    (detectTestability "As a user, I want magic.").hasCompoundCriteria = false ∧
    (detectTestability "As a user, I want magic.").hasUserStoryAntiPattern = true ∧
    (scoreTestability "As a user, I want magic.").strengths =
      ["No vague terms - criteria are specific"] ∧
    "all criteria independently verifiable" ∉
      (scoreTestability "As a user, I want magic.").strengths ∧
    "All criteria are binary verifiable" ∉
      (scoreTestability "As a user, I want magic.").strengths := by
  refine ⟨?_, ?_, ?_, ?_, ?_, ?_⟩ <;> decide

/-- C7 (amended): for every input in which the detector reports no vague
terms, no compound criteria, and also no user-story, Gherkin or
implementation-detail anti-patterns, `scoreTestability` records the strength
`"All criteria are binary verifiable"`. -/
theorem C7_clean_strength (text : String)
    (h1 : (detectTestability text).vagueTermCount = 0)
    (h2 : (detectTestability text).hasCompoundCriteria = false)
    (h3 : (detectTestability text).hasUserStoryAntiPattern = false)
    (h4 : (detectTestability text).hasGherkinAntiPattern = false)
    (h5 : (detectTestability text).hasImplementationDetails = false) :
    "All criteria are binary verifiable" ∈ (scoreTestability text).strengths := by
  have hIss : (detectTestability text).hasIssues = false := by
    rw [detectTestability_hasIssues, h1, h3, h4, h5]
    rfl
  unfold scoreTestability scoreTestabilityOf
  simp [h1, h2, hIss]

/-- C7 witness: a concrete clean input for the amended claim. -/
theorem C7_clean_strength_witness :
    (detectTestability "Display the result.").vagueTermCount = 0 ∧
    (detectTestability "Display the result.").hasCompoundCriteria = false ∧
    (detectTestability "Display the result.").hasUserStoryAntiPattern = false ∧
    (detectTestability "Display the result.").hasGherkinAntiPattern = false ∧
    (detectTestability "Display the result.").hasImplementationDetails = false ∧
    "All criteria are binary verifiable" ∈
      (scoreTestability "Display the result.").strengths :=
  ⟨by decide, by decide, by decide, by decide, by decide,
   C7_clean_strength "Display the result." (by decide) (by decide) (by decide)
     (by decide) (by decide)⟩

/-- C8 counterexample: the `getScoreColor` helper of `validator.js` cited by
the claim is percentage based with thresholds 80/60/40, so at total score 70
(of maxScore 100) it returns the yellow class, not a green tier. -/
theorem C8_counterexample :
    getScoreColor 70 100 = "text-yellow-400" ∧
    getScoreColor 70 100 ≠ "text-green-400" := by
  have h : getScoreColor 70 100 = "text-yellow-400" := by
    unfold getScoreColor
    rw [if_neg (by norm_num), if_pos (by norm_num)]
  exact ⟨h, by rw [h]; decide⟩

/-- C8 (amended): the inline variant (`getScoreColor` of
`validator-inline.js`) is the helper with the claimed 70/50/30 tier map:
green iff `t ≥ 70`, yellow iff `50 ≤ t < 70`, orange iff `30 ≤ t < 50`, red
iff `t < 30` — inclusive lower bounds, no overlaps and no gaps; the
`validator.js` `getScoreColor` instead uses percentage thresholds 80/60/40. -/
theorem C8_inline_color_tiers (t : Int) (h0 : 0 ≤ t) (h1 : t ≤ 100) :
    (Inline.getScoreColor t = "green" ↔ 70 ≤ t) ∧
    (Inline.getScoreColor t = "yellow" ↔ 50 ≤ t ∧ t < 70) ∧
    (Inline.getScoreColor t = "orange" ↔ 30 ≤ t ∧ t < 50) ∧
    (Inline.getScoreColor t = "red" ↔ t < 30) := by
  unfold Inline.getScoreColor
  split_ifs <;>
    refine ⟨?_, ?_, ?_, ?_⟩ <;>
    constructor <;>
    intro h <;>
    first
      | rfl
      | omega
      | exact absurd h (by decide)

/-- C8 witness: the tier map instantiated at 85. -/
theorem C8_inline_color_tiers_witness :
    (0 : Int) ≤ 85 ∧ (85 : Int) ≤ 100 ∧
    (Inline.getScoreColor 85 = "green" ↔ (70 : Int) ≤ 85) :=
  ⟨by decide, by decide, (C8_inline_color_tiers 85 (by decide) (by decide)).1⟩

end ACV
